import Mathlib

/-!
Verification of the Structured Cognitive Loop (SCL) core against its design
specification.  The definitions below are a shallow embedding of
`scl_core.py` (the Memory / audit store, the MetaPrompt rule set, the
ToolRegistry, and the R-CCAM orchestration loop) and of the decision
function `MockCognitionEngine._generate_decision` from `mock_cognition.py`.

Embedding conventions:
* Python dictionaries are association lists `List (String × _)` with
  insertion-order semantics (`dictSet` replaces in place, `dictGet` finds
  the first matching key), matching CPython dict behaviour.
* Arbitrary Python values (tool results, trace snapshots) are modelled by
  the inductive type `Value` (a JSON-like universe).
* Wall-clock timestamps (`datetime.now().isoformat()`) are abstracted as
  the constant string `""`; no verified property mentions them.
* `json.dumps(..., sort_keys=True)` is modelled by `jsonDumpsSortKeys`:
  a recursive key-sort (`sortKeysV`) followed by serialization (`dumpsV`).
  String escaping is modelled for backslash and double quote; the
  `ensure_ascii` escaping of non-ASCII characters is abstracted (it is a
  bijective renaming of characters and does not affect any claim).
* Raising an exception is modelled with `Except String`.
-/

namespace SCL

/-- JSON-like universe of Python values used throughout the loop
(tool results, memory snapshots, trace states). -/
inductive Value where
| str (s : String) : Value
| int (n : Int) : Value
| bool (b : Bool) : Value
| null : Value
| list (xs : List Value) : Value
| dict (fields : List (String × Value)) : Value

/-- Python dict update: replace the value in place if the key exists
(keeping its position), otherwise append at the end. -/
def dictSet {α : Type} : List (String × α) → String → α → List (String × α)
| [], k, v => [(k, v)]
| (k', v') :: rest, k, v =>
    if k' = k then (k, v) :: rest else (k', v') :: dictSet rest k v

/-- Python dict lookup (`d.get(k)`): first binding for the key, if any. -/
def dictGet {α : Type} : List (String × α) → String → Option α
| [], _ => none
| (k', v') :: rest, k => if k' = k then some v' else dictGet rest k

/-- A single quote character, used to build Python error/repr strings. -/
def sq : String := String.singleton (Char.ofNat 39)

/-- Left brace character of JSON output. -/
def lbr : String := "\x7b"

/-- Right brace character of JSON output. -/
def rbr : String := "\x7d"

/-- Escape of a string for JSON serialization (backslash and quote). -/
def jsonEscape (s : String) : String :=
  String.join (s.toList.map fun c =>
    if c = '\\' then "\\\\"
    else if c = '"' then "\\\""
    else String.singleton c)

mutual

/-- Serialization of a `Value` in the style of Python `json.dumps` with
its default separators. -/
def dumpsV : Value → String
| .str s => "\"" ++ jsonEscape s ++ "\""
| .int n => toString n
| .bool b => if b then "true" else "false"
| .null => "null"
| .list xs => "[" ++ dumpsL xs ++ "]"
| .dict fs => lbr ++ dumpsF fs ++ rbr

/-- Serialization of a list of values, comma separated. -/
def dumpsL : List Value → String
| [] => ""
| [x] => dumpsV x
| x :: y :: xs => dumpsV x ++ ", " ++ dumpsL (y :: xs)

/-- Serialization of dict fields, comma separated, `"key": value` style. -/
def dumpsF : List (String × Value) → String
| [] => ""
| [(k, v)] => "\"" ++ jsonEscape k ++ "\": " ++ dumpsV v
| (k, v) :: f :: fs =>
    "\"" ++ jsonEscape k ++ "\": " ++ dumpsV v ++ ", " ++ dumpsF (f :: fs)

end

/-- The Boolean key order used by `sort_keys=True`. -/
def keyLE (a b : String × Value) : Bool := decide (a.1 ≤ b.1)

mutual

/-- Recursive key sort of a value, modelling the effect of
`json.dumps(..., sort_keys=True)` on every nested dictionary. -/
def sortKeysV : Value → Value
| .str s => .str s
| .int n => .int n
| .bool b => .bool b
| .null => .null
| .list xs => .list (sortKeysL xs)
| .dict fs => .dict ((sortKeysF fs).mergeSort keyLE)

/-- Key sort mapped over a list of values. -/
def sortKeysL : List Value → List Value
| [] => []
| x :: xs => sortKeysV x :: sortKeysL xs

/-- Key sort mapped over dict fields (the sort itself happens in
`sortKeysV` at the enclosing dict). -/
def sortKeysF : List (String × Value) → List (String × Value)
| [] => []
| (k, v) :: fs => (k, sortKeysV v) :: sortKeysF fs

end

/-- Model of `json.dumps(v, sort_keys=True)`. -/
def jsonDumpsSortKeys (v : Value) : String := dumpsV (sortKeysV v)

/-- Record of a single CCAM loop iteration (`LoopTrace` dataclass).  The
`timestamp` field of the Python dataclass is abstracted away (wall-clock
time); all other fields are carried verbatim, with the input and output
snapshots embedded as `Value`s. -/
structure LoopTrace where
  loop_id : String
  module : String
  input_state : Value
  output_state : Value
  decision : Option String
  validation_result : Option Bool
  evidence_refs : Option (List String)

/-- Working-memory entry written by `Memory.write` (the `timestamp`
component is abstracted, as for traces). -/
structure StoreEntry where
  value : Value
  evidence_id : Option String

/-- Externalized working store (`Memory` class): key-value store,
append-only trace history, evidence cache. -/
structure Memory where
  store : List (String × StoreEntry)
  history : List LoopTrace
  evidence_cache : List (String × Value)

/-- Fresh memory as built by `Memory.__init__`. -/
def Memory.init : Memory := ⟨[], [], []⟩

/-- Store state with optional evidence reference (`Memory.write`). -/
def Memory.write (m : Memory) (key : String) (value : Value)
    (evidence_id : Option String) : Memory :=
  { m with store := dictSet m.store key ⟨value, evidence_id⟩ }

/-- Retrieve stored state (`Memory.read`): `entry["value"]` if present. -/
def Memory.read (m : Memory) (key : String) : Option Value :=
  (dictGet m.store key).map StoreEntry.value

/-- Check if evidence already exists (`Memory.has_evidence`). -/
def Memory.has_evidence (m : Memory) (evidence_id : String) : Bool :=
  (dictGet m.evidence_cache evidence_id).isSome

/-- Cache retrieved evidence (`Memory.store_evidence`).  Note that the
Python body is a bare dict assignment: an existing entry for the same
identifier is overwritten and no duplicate signal is produced. -/
def Memory.store_evidence (m : Memory) (evidence_id : String) (data : Value) :
    Memory :=
  { m with evidence_cache := dictSet m.evidence_cache evidence_id data }

/-- Retrieve cached evidence (`Memory.get_evidence`). -/
def Memory.get_evidence (m : Memory) (evidence_id : String) : Option Value :=
  dictGet m.evidence_cache evidence_id

/-- Append to audit log (`Memory.log_trace`). -/
def Memory.log_trace (m : Memory) (trace : LoopTrace) : Memory :=
  { m with history := m.history ++ [trace] }

/-- Return current state for Cognition context
(`Memory.get_state_summary`). -/
def Memory.get_state_summary (m : Memory) : Value :=
  .dict [("stored_values", .dict (m.store.map fun p => (p.1, p.2.value))),
         ("available_evidence", .list (m.evidence_cache.map fun p => .str p.1)),
         ("loop_count", .int m.history.length)]

/-- A registered tool: dispatch function (which may raise, modelled by
`Except`), description, and name (`ToolRegistry.register` metadata). -/
structure ToolEntry where
  func : List (String × Value) → Except String Value
  description : String
  name : String

/-- Registry of available tools for the Action module. -/
structure ToolRegistry where
  tools : List (String × ToolEntry)

/-- Register a tool with metadata (`ToolRegistry.register`);
re-registration overwrites in place. -/
def ToolRegistry.register (r : ToolRegistry) (name : String)
    (func : List (String × Value) → Except String Value)
    (description : String) : ToolRegistry :=
  ⟨dictSet r.tools name ⟨func, description, name⟩⟩

/-- Return list of available tools for Cognition
(`ToolRegistry.get_tool_descriptions`), in registration order. -/
def ToolRegistry.get_tool_descriptions (r : ToolRegistry) : Value :=
  .list (r.tools.map fun p =>
    .dict [("name", .str p.2.name), ("description", .str p.2.description)])

/-- Execute a registered tool (`ToolRegistry.execute`): raises
`ValueError` for an unregistered name, otherwise calls the function. -/
def ToolRegistry.execute (r : ToolRegistry) (tool_name : String)
    (kwargs : List (String × Value)) : Except String Value :=
  match dictGet r.tools tool_name with
  | none => .error ("Tool " ++ sq ++ tool_name ++ sq ++ " not registered")
  | some t => t.func kwargs

/-- The fixed rule set of the `MetaPrompt` soft symbolic control layer. -/
structure Rules where
  must_cite_stored_evidence : Bool
  no_final_answer_without_control_pass : Bool
  single_final_action : Bool
  avoid_redundant_tool_calls : Bool
  validate_conditional_branches : Bool

/-- The rule mapping as constructed by `MetaPrompt.__init__`
(all entries enabled). -/
def defaultRules : Rules := ⟨true, true, true, true, true⟩

/-- Keys of the rule mapping, in insertion order (used for the
`policies` field of the audit report). -/
def rulesKeys : List String :=
  ["must_cite_stored_evidence",
   "no_final_answer_without_control_pass",
   "single_final_action",
   "avoid_redundant_tool_calls",
   "validate_conditional_branches"]

/-- Action descriptor inside a cognition output: tool name (possibly
absent) and parameter mapping (`proposed_action` dict, with
`.get("tool_name")` and `.get("parameters", \x7b\x7d)` access). -/
structure ProposedAction where
  tool_name : Option String
  parameters : List (String × Value)

/-- Output of the cognition engine, with the fields the core reads plus
the extra fields produced by the mock engine (`decision_branch`,
`destination`, `umbrella_needed`), absent by default. -/
structure CognitionOutput where
  reasoning : String
  proposed_action : Option ProposedAction
  evidence_refs : List String
  is_final_action : Bool
  control_validated : Bool
  decision_branch : Option String := none
  destination : Option String := none
  umbrella_needed : Option Bool := none

/-- The dict the core works with after
`cognition_output.get("proposed_action", \x7b\x7d)`: an absent descriptor
behaves like an empty dict (no tool name, no parameters).  (A literal
Python `None` value for the key would raise an `AttributeError` in
`control`; that path is unreachable in the repository, whose engines only
produce `None` descriptors from dead branches, so the embedding uses the
empty-dict semantics for it.) -/
def CognitionOutput.pa (o : CognitionOutput) : ProposedAction :=
  o.proposed_action.getD ⟨none, []⟩

/-- Python truthiness of the extracted tool name (`if tool_name:`):
`None` and the empty string are falsy. -/
def ProposedAction.toolNameTruthy (pa : ProposedAction) : Option String :=
  match pa.tool_name with
  | none => none
  | some t => if t = "" then none else some t

/-- The list of violation messages collected by `MetaPrompt.validate`. -/
def validateIssues (rules : Rules) (o : CognitionOutput) : List String :=
  (if rules.must_cite_stored_evidence then
     (if o.evidence_refs.isEmpty then ["Missing evidence citations"] else [])
   else []) ++
  (if o.is_final_action then
     (if o.control_validated then []
      else ["Final action without Control validation"])
   else [])

/-- Validate Cognition output against symbolic rules
(`MetaPrompt.validate`): `(is_valid, message)`. -/
def MetaPrompt.validate (rules : Rules) (o : CognitionOutput) :
    Bool × String :=
  let issues := validateIssues rules o
  (issues.isEmpty,
   if issues.isEmpty then "PASS"
   else "VIOLATIONS: " ++ String.intercalate "; " issues)

/-- Evidence identifier computed inside `StructuredCognitiveLoop.control`
(line 295): `f"evidence_\x7btool_name\x7d_\x7bjson.dumps(parameters, sort_keys=True)\x7d"`. -/
def controlEvidenceId (tool_name : String)
    (parameters : List (String × Value)) : String :=
  "evidence_" ++ tool_name ++ "_" ++ jsonDumpsSortKeys (.dict parameters)

/-- Evidence identifier computed inside `StructuredCognitiveLoop.action`
(line 335), textually the same formula as in `control`. -/
def actionEvidenceId (tool_name : String)
    (parameters : List (String × Value)) : String :=
  "evidence_" ++ tool_name ++ "_" ++ jsonDumpsSortKeys (.dict parameters)

/-- Rejection message for a redundant tool call. -/
def redundantMsg : String :=
  "REJECTED: Redundant tool call (evidence already in Memory)"

/-- Step 1 of the Control module: for final actions, mark the proposal as
control-validated before the rule check (the in-place dict mutation of
`control`, lines 283-284). -/
def controlMutate (o : CognitionOutput) : CognitionOutput :=
  if o.is_final_action then { o with control_validated := true } else o

/-- The decision part of `StructuredCognitiveLoop.control`: flag
mutation, `MetaPrompt.validate`, then the redundant-tool-call check,
returning `(is_valid, message, mutated output)`. -/
def controlVerdict (rules : Rules) (m : Memory) (o : CognitionOutput) :
    Bool × String × CognitionOutput :=
  let o2 := controlMutate o
  let vm := MetaPrompt.validate rules o2
  match o2.pa.toolNameTruthy with
  | none => (vm.1, vm.2, o2)
  | some tool_name =>
    let evidence_id := controlEvidenceId tool_name o2.pa.parameters
    if m.has_evidence evidence_id then (false, redundantMsg, o2)
    else (vm.1, vm.2, o2)

/-- Zero-padded three-digit loop counter used in trace ids
(Python `f"\x7bn:03d\x7d"`). -/
def pad3 (n : Nat) : String :=
  if n < 10 then "00" ++ toString n
  else if n < 100 then "0" ++ toString n
  else toString n

/-- Embedding of a proposed-action dict as a `Value` (for trace
snapshots). -/
def ProposedAction.toValue (pa : ProposedAction) : Value :=
  .dict [("tool_name", match pa.tool_name with
                       | none => .null
                       | some t => .str t),
         ("parameters", .dict pa.parameters)]

/-- Embedding of a cognition output dict as a `Value` (for trace
snapshots); optional mock-engine fields appear only when present. -/
def CognitionOutput.toValue (o : CognitionOutput) : Value :=
  .dict ([("reasoning", .str o.reasoning),
          ("proposed_action", match o.proposed_action with
                              | none => .null
                              | some pa => pa.toValue),
          ("evidence_refs", .list (o.evidence_refs.map .str)),
          ("is_final_action", .bool o.is_final_action),
          ("control_validated", .bool o.control_validated)] ++
         (match o.decision_branch with
          | none => [] | some b => [("decision_branch", .str b)]) ++
         (match o.destination with
          | none => [] | some d => [("destination", .str d)]) ++
         (match o.umbrella_needed with
          | none => [] | some u => [("umbrella_needed", .bool u)]))

/-- The Control module (`StructuredCognitiveLoop.control`): verdict plus
the Control-stage trace appended to memory. -/
structure ControlResult where
  is_valid : Bool
  message : String
  output : CognitionOutput
  memory : Memory

/-- One run of `StructuredCognitiveLoop.control` over the current memory
and loop counter. -/
def controlStep (rules : Rules) (m : Memory) (loop_counter : Nat)
    (o : CognitionOutput) : ControlResult :=
  let v := controlVerdict rules m o
  let trace : LoopTrace :=
    ⟨"CTL-" ++ pad3 loop_counter, "Control", (v.2.2).toValue,
     .dict [("validation", .bool v.1), ("message", .str v.2.1)],
     none, some v.1, none⟩
  ⟨v.1, v.2.1, v.2.2, m.log_trace trace⟩

/-- One run of `StructuredCognitiveLoop.action`: dispatch the proposed
tool, store the result as evidence and append an Action trace on
success, or wrap a raised error into a structured result.  Returns the
action result together with the updated memory. -/
def actionStep (registry : ToolRegistry) (m : Memory) (loop_counter : Nat)
    (o : CognitionOutput) : Value × Memory :=
  let pa := o.pa
  match pa.toolNameTruthy with
  | none => (.dict [("status", .str "no_action"), ("result", .null)], m)
  | some tool_name =>
    match registry.execute tool_name pa.parameters with
    | .error e =>
      (.dict [("status", .str "error"),
              ("message", .str ("Action execution failed: " ++ e))], m)
    | .ok result =>
      let evidence_id := actionEvidenceId tool_name pa.parameters
      let m2 := m.store_evidence evidence_id result
      let trace : LoopTrace :=
        ⟨"ACT-" ++ pad3 loop_counter, "Action", pa.toValue,
         .dict [("result", result), ("evidence_id", .str evidence_id)],
         none, none, none⟩
      (result, m2.log_trace trace)

/-- The running context dict of `StructuredCognitiveLoop.run`: seeded
with task, retrieval plan and status, then extended in place with the
last rejection reason and the last action result. -/
structure Context where
  task : String
  retrieval_plan : Value
  status : String
  last_rejection : Option String
  last_action_result : Option Value

/-- Embedding of the context dict as a `Value` (optional keys appear
only once set, as in the Python dict). -/
def Context.toValue (c : Context) : Value :=
  .dict ([("task", .str c.task),
          ("retrieval_plan", c.retrieval_plan),
          ("status", .str c.status)] ++
         (match c.last_rejection with
          | none => [] | some r => [("last_rejection", .str r)]) ++
         (match c.last_action_result with
          | none => [] | some v => [("last_action_result", v)]))

/-- The fixed instruction text of the soft symbolic control layer
(`MetaPrompt.instructions`, whitespace normalized). -/
def metaPromptInstructions : String :=
  "You are operating under Soft Symbolic Control within a Structured " ++
  "Cognitive Loop.\n\nMANDATORY CONSTRAINTS:\n" ++
  "1. Always consult Memory before proposing actions\n" ++
  "2. Cite evidence from Retrieval/Memory in all reasoning\n" ++
  "3. Never execute final actions without Control validation\n" ++
  "4. Apply conditional logic exactly as specified\n" ++
  "5. Avoid redundant tool calls by checking Memory first\n\n" ++
  "REASONING PROTOCOL:\n- State current goal explicitly\n" ++
  "- Reference stored evidence by ID\n" ++
  "- Propose action with clear rationale\n" ++
  "- Wait for Control validation before execution"

/-- The prompt assembled by `StructuredCognitiveLoop.cognition` from the
metaprompt instructions, the memory summary, the tool descriptions and
the running context (JSON pretty-printing indentation abstracted). -/
def cognitionPrompt (m : Memory) (registry : ToolRegistry) (ctx : Context) :
    String :=
  metaPromptInstructions ++
  "\n\nCURRENT STATE:\n" ++ dumpsV m.get_state_summary ++
  "\n\nAVAILABLE TOOLS:\n" ++ dumpsV registry.get_tool_descriptions ++
  "\n\nCONTEXT:\n" ++ dumpsV ctx.toValue ++
  "\n\nBased on the above, determine:\n" ++
  "1. What is the next action needed?\n" ++
  "2. What evidence supports this decision?\n" ++
  "3. Are all conditions for this action met?\n\n" ++
  "Respond in JSON format with:\n- reasoning: your thought process\n" ++
  "- proposed_action: \x7btool_name, parameters\x7d\n" ++
  "- evidence_refs: list of evidence IDs used\n" ++
  "- is_final_action: boolean"

/-- Orchestrator state: the audit store, the private loop counter, and
the (opaque) internal state of the external cognition engine. -/
structure SCLState (σ : Type) where
  memory : Memory
  loop_counter : Nat
  engineState : σ

/-- A cognition engine: a possibly stateful function from the assembled
prompt and the running context to a cognition output (the opaque state
σ models the closure state of the Python callable). -/
def Engine (σ : Type) : Type :=
  σ → String → Context → CognitionOutput × σ

/-- One run of `StructuredCognitiveLoop.cognition`: increment the loop
counter, call the engine on the assembled prompt, append a
Cognition-stage trace. -/
def cognitionStep {σ : Type} (engine : Engine σ) (registry : ToolRegistry)
    (s : SCLState σ) (ctx : Context) : CognitionOutput × SCLState σ :=
  let loop_counter := s.loop_counter + 1
  let prompt := cognitionPrompt s.memory registry ctx
  let r := engine s.engineState prompt ctx
  let trace : LoopTrace :=
    ⟨"CCAM-" ++ pad3 loop_counter, "Cognition", ctx.toValue, r.1.toValue,
     none, none, some r.1.evidence_refs⟩
  (r.1, ⟨s.memory.log_trace trace, loop_counter, r.2⟩)

/-- The CCAM while-loop of `StructuredCognitiveLoop.run`.  The Python
loop guard is `loop_counter < max_loops`; since the counter starts at 0
and each iteration increments it exactly once (inside `cognition`), the
loop body runs while `max_loops - loop_counter > 0`, which the `fuel`
argument carries.  The returned Boolean records whether the loop ended
through the final-action `break` (the completion path) as opposed to
exhausting the guard. -/
def runLoop {σ : Type} (engine : Engine σ) (registry : ToolRegistry)
    (rules : Rules) : Nat → SCLState σ → Context → SCLState σ × Context × Bool
| 0, s, ctx => (s, ctx, false)
| Nat.succ fuel, s, ctx =>
  let c := cognitionStep engine registry s ctx
  let cr := controlStep rules c.2.memory c.2.loop_counter c.1
  let s2 : SCLState σ := ⟨cr.memory, c.2.loop_counter, c.2.engineState⟩
  if cr.is_valid then
    let ar := actionStep registry s2.memory s2.loop_counter cr.output
    let s3 : SCLState σ := ⟨ar.2, s2.loop_counter, s2.engineState⟩
    let ctx2 : Context := { ctx with last_action_result := some ar.1 }
    if cr.output.is_final_action then (s3, ctx2, true)
    else runLoop engine registry rules fuel s3 ctx2
  else
    runLoop engine registry rules fuel s2
      { ctx with last_rejection := some cr.message }

/-- The hard-coded retrieval plan built by
`StructuredCognitiveLoop.retrieval`. -/
def retrievalPlan : Value :=
  .dict [("evidence_needed",
          .list [.str "SF_weather", .str "Miami_weather",
                 .str "Atlanta_weather"]),
         ("base_temperature", .int 55),
         ("conditions_parsed", .bool true),
         ("tools_required",
          .list [.str "get_weather", .str "send_email",
                 .str "generate_image", .str "cancel_trip"])]

/-- The Retrieval module (`StructuredCognitiveLoop.retrieval`): writes
the task and the plan into memory and appends one Retrieval trace. -/
def retrievalStep (m : Memory) (task : String) : Memory :=
  let m1 := m.write "task" (.str task) none
  let m2 := m1.write "retrieval_plan" retrievalPlan none
  m2.log_trace
    ⟨"R-001", "Retrieval", .dict [("task", .str task)], retrievalPlan,
     none, none, none⟩

/-- The audit report assembled by
`StructuredCognitiveLoop._generate_audit_report`. -/
structure AuditReport where
  task : Option Value
  policies : List String
  log : List LoopTrace
  total_loops : Nat
  policy_violations : Nat
  final_state : Value

/-- Generate the audit report from the final memory and loop counter. -/
def generateAuditReport (m : Memory) (loop_counter : Nat) : AuditReport :=
  ⟨m.read "task", rulesKeys, m.history, loop_counter,
   (m.history.filter fun t => t.validation_result == some false).length,
   m.get_state_summary⟩

/-- The full `StructuredCognitiveLoop.run`: one Retrieval step, the CCAM
loop bounded by `max_loops`, then the audit report.  The second
component records whether the run completed through a final action
(`true`) or stopped by exhausting the loop budget (`false`). -/
def run {σ : Type} (engine : Engine σ) (registry : ToolRegistry)
    (rules : Rules) (max_loops : Nat) (es0 : σ) (task : String) :
    AuditReport × Bool :=
  let m0 := retrievalStep Memory.init task
  let ctx0 : Context := ⟨task, retrievalPlan, "in_progress", none, none⟩
  let r := runLoop engine registry rules max_loops ⟨m0, 0, es0⟩ ctx0
  (generateAuditReport r.1.memory r.1.loop_counter, r.2.2)

/-- Number of trace records of a given module kind in a log. -/
def countModule (log : List LoopTrace) (module : String) : Nat :=
  (log.filter fun t => t.module == module).length

/-- A collected weather record as produced by the `get_weather` mock tool
and consumed by `MockCognitionEngine._generate_decision`.  The records
reaching the decision function always carry these four keys, so the
Python `w.get(key, default)` accesses become plain field reads. -/
structure WeatherRecord where
  city : String
  temperature_f : Int
  condition : String
  precipitation_chance : Int

/-- Python `str` of a list of strings (single-quoted repr), used inside a
reasoning message of the mock engine. -/
def pyStrList (xs : List String) : String :=
  "[" ++ String.intercalate ", " (xs.map fun s => sq ++ s ++ sq) ++ "]"

/-- Temperature rendering `f"\x7btemp\x7d°F"`. -/
def degF (n : Int) : String := toString n ++ "°F"

/-- Python `min(ws, key=lambda x: x["temperature_f"])`: the first record
with minimal temperature.  Python raises on an empty list; the branch
guards of `_generate_decision` only apply it to nonempty lists, and the
embedding returns a dummy record there. -/
def pyMinByTemp : List WeatherRecord → WeatherRecord
| [] => ⟨"", 0, "", 0⟩
| w :: ws =>
    ws.foldl (fun acc x =>
      if x.temperature_f < acc.temperature_f then x else acc) w

/-- The filter `[w for w in weather_data if w.get("temperature_f", 0) >
base_temp]`. -/
def aboveThresholdList (weather_data : List WeatherRecord) (base_temp : Int) :
    List WeatherRecord :=
  weather_data.filter fun w => decide (base_temp < w.temperature_f)

/-- Umbrella phrase used in the email bodies. -/
def umbrellaText (precipitation_chance : Int) : String :=
  if 30 < precipitation_chance then "Bring umbrella" else "No umbrella needed"

/-- Embedding of `MockCognitionEngine._generate_decision`: the
conditional travel-planning logic over the collected weather records. -/
def generateDecision (weather_data : List WeatherRecord) (base_temp : Int) :
    CognitionOutput :=
  if weather_data.length < 3 then
    { reasoning := "Not enough weather data collected yet",
      proposed_action := none, evidence_refs := [],
      is_final_action := false, control_validated := false }
  else
    let above_threshold := aboveThresholdList weather_data base_temp
    if above_threshold.length = 3 then
      let coolest := pyMinByTemp above_threshold
      { reasoning := "All three cities are above base temperature " ++
          degF base_temp ++
          ". Per task specification, travel to coolest: " ++ coolest.city ++
          " at " ++ degF coolest.temperature_f ++
          ". Will generate weather image.",
        proposed_action := some ⟨some "generate_image",
          [("description", .str (coolest.city ++ " weather: " ++
             coolest.condition ++ ", " ++ degF coolest.temperature_f))]⟩,
        evidence_refs := ["weather_sf", "weather_miami", "weather_atlanta"],
        is_final_action := true, control_validated := false,
        decision_branch := some "all_above_threshold",
        destination := some coolest.city,
        umbrella_needed := some (decide (30 < coolest.precipitation_chance)) }
    else if above_threshold.length = 2 then
      let cooler := pyMinByTemp above_threshold
      { reasoning := "Two cities above base temperature: " ++
          pyStrList (above_threshold.map WeatherRecord.city) ++
          ". Per task specification, choose cooler (" ++ cooler.city ++
          " at " ++ degF cooler.temperature_f ++
          ") and send email notification.",
        proposed_action := some ⟨some "send_email",
          [("recipient", .str "test-scl@test.com"),
           ("subject", .str ("Travel Plan Confirmed: " ++ cooler.city)),
           ("body", .str ("Based on weather analysis, traveling to " ++
              cooler.city ++ ". Temperature: " ++
              degF cooler.temperature_f ++ ", Condition: " ++
              cooler.condition ++ ". " ++
              umbrellaText cooler.precipitation_chance ++ "."))]⟩,
        evidence_refs := ["weather_sf", "weather_miami", "weather_atlanta"],
        is_final_action := true, control_validated := false,
        decision_branch := some "two_above_threshold",
        destination := some cooler.city,
        umbrella_needed := some (decide (30 < cooler.precipitation_chance)) }
    else if above_threshold.length = 1 then
      let destination := above_threshold.headD ⟨"", 0, "", 0⟩
      { reasoning := "Only " ++ destination.city ++
          " is above base temperature (" ++
          degF destination.temperature_f ++ " > " ++ degF base_temp ++
          "). Per task specification, travel to that location.",
        proposed_action := some ⟨some "send_email",
          [("recipient", .str "test-scl@test.com"),
           ("subject", .str ("Travel Plan: " ++ destination.city)),
           ("body", .str ("Traveling to " ++ destination.city ++
              ". Temperature: " ++ degF destination.temperature_f ++ ". " ++
              umbrellaText destination.precipitation_chance ++ "."))]⟩,
        evidence_refs := ["weather_sf", "weather_miami", "weather_atlanta"],
        is_final_action := true, control_validated := false,
        decision_branch := some "one_above_threshold",
        destination := some destination.city,
        umbrella_needed :=
          some (decide (30 < destination.precipitation_chance)) }
    else
      { reasoning := "All cities are at or below base temperature " ++
          degF base_temp ++ ": " ++
          String.intercalate ", "
            (weather_data.map fun w => w.city ++ "=" ++
              degF w.temperature_f) ++
          ". Per task specification, cancel trip and recommend " ++
          "convenience store snacks.",
        proposed_action := some ⟨some "cancel_trip",
          [("reason", .str ("All destinations below comfortable " ++
             "temperature threshold"))]⟩,
        evidence_refs := ["weather_sf", "weather_miami", "weather_atlanta"],
        is_final_action := false, control_validated := false,
        decision_branch := some "all_below_threshold" }

/-- Whether the redundancy check of the Policy Gate hits: the proposal
names a tool and the derived evidence identifier is already cached. -/
def redundantHit (m : Memory) (o : CognitionOutput) : Bool :=
  match o.pa.toolNameTruthy with
  | none => false
  | some t => m.has_evidence (controlEvidenceId t o.pa.parameters)

/-- The claim-side Boolean "the proposal is final and the
control-validated flag is false". -/
def finalUnvalidated (o : CognitionOutput) : Bool :=
  o.is_final_action && !o.control_validated

/-- The approval/message pair of the Policy Gate verdict. -/
def verdictPair (rules : Rules) (m : Memory) (o : CognitionOutput) :
    Bool × String :=
  ((controlVerdict rules m o).1, (controlVerdict rules m o).2.1)

/-- The cognition output proposes a call of tool `T` with a parameter
mapping equal to `P` (same keys bound to the same values, in any
insertion order; `P` has no duplicate keys, as a Python dict). -/
def proposesCall (o : CognitionOutput) (T : String)
    (P : List (String × Value)) : Prop :=
  o.pa.toolNameTruthy = some T ∧ o.pa.parameters.Perm P ∧
  (P.map Prod.fst).Nodup

/-- Mirror of the control flow of `runLoop`, asserting at every visited
iteration: if the cognition output proposes tool `T` with a parameter
mapping equal to `P`, then Control rejects it with the distinct
redundant-call message and the iteration ends at the Control stage (the
evidence cache is untouched and no Action trace is appended). -/
def redundantGuard {σ : Type} (engine : Engine σ) (registry : ToolRegistry)
    (rules : Rules) (T : String) (P : List (String × Value)) :
    Nat → SCLState σ → Context → Prop
| 0, _, _ => True
| Nat.succ fuel, s, ctx =>
  let c := cognitionStep engine registry s ctx
  let cr := controlStep rules c.2.memory c.2.loop_counter c.1
  let s2 : SCLState σ := ⟨cr.memory, c.2.loop_counter, c.2.engineState⟩
  (proposesCall c.1 T P →
     cr.is_valid = false ∧ cr.message = redundantMsg ∧
     s2.memory.evidence_cache = s.memory.evidence_cache ∧
     countModule s2.memory.history "Action" =
       countModule s.memory.history "Action") ∧
  (if cr.is_valid then
     (if cr.output.is_final_action then True
      else
        let ar := actionStep registry s2.memory s2.loop_counter cr.output
        redundantGuard engine registry rules T P fuel
          ⟨ar.2, s2.loop_counter, s2.engineState⟩
          { ctx with last_action_result := some ar.1 })
   else
     redundantGuard engine registry rules T P fuel s2
       { ctx with last_rejection := some cr.message })

/-- Concrete memory holding one cached evidence value (input of the C1
counterexample). -/
def c1mem : Memory := Memory.init.store_evidence "e1" (.int 1)

/-- Concrete one-tool registry whose tool always succeeds (input of the
C2 counterexample). -/
def c2registry : ToolRegistry :=
  ⟨[("get_data", ⟨fun _ => .ok (.str "data42"), "returns data",
     "get_data"⟩)]⟩

/-- Concrete approved proposal calling the tool of `c2registry`. -/
def c2output : CognitionOutput :=
  { reasoning := "r", proposed_action := some ⟨some "get_data", []⟩,
    evidence_refs := ["retrieval_plan"],
    is_final_action := false, control_validated := false }

/-- Concrete parameter mapping used by the C3 and C5 witnesses. -/
def cityParams : List (String × Value) := [("city", .str "SF")]

/-- Concrete cognition output proposing `get_weather` on `cityParams`
(C5 witness). -/
def c5output : CognitionOutput :=
  { reasoning := "need weather",
    proposed_action := some ⟨some "get_weather", cityParams⟩,
    evidence_refs := ["retrieval_plan"],
    is_final_action := false, control_validated := false }

/-- Constant engine proposing the already-executed call (C5 witness). -/
def c5engine : Engine Unit := fun _ _ _ => (c5output, ())

/-- Memory whose evidence cache already holds the identifier of the
`get_weather` call on `cityParams` (C5 witness). -/
def c5mem : Memory :=
  Memory.init.store_evidence (controlEvidenceId "get_weather" cityParams)
    (.dict [("city", .str "SF"), ("temperature_f", .int 60)])

/-- A trivial running context for concrete loop states. -/
def ctx0 : Context := ⟨"task", retrievalPlan, "in_progress", none, none⟩

/-- Constant engine whose proposal is non-final and cites no evidence,
so the Policy Gate always rejects it (C7 witness). -/
def c7engine : Engine Unit := fun _ _ _ =>
  ({ reasoning := "no evidence", proposed_action := none,
     evidence_refs := [], is_final_action := false,
     control_validated := false }, ())

/-- Concrete output with a tool call and cited evidence (C10 witness). -/
def c10output : CognitionOutput :=
  { reasoning := "call", proposed_action := some ⟨some "t1", []⟩,
    evidence_refs := ["e"],
    is_final_action := false, control_validated := false }

/-- Memory caching the evidence identifier of the `c10output` call (C10
witness). -/
def c10mem : Memory :=
  Memory.init.store_evidence (controlEvidenceId "t1" []) .null

/-- Rule set with the three never-consulted flags disabled (C10
witness). -/
def c10rules : Rules := ⟨true, true, false, false, false⟩

/-- The weather-record list of test scenario A: SF=60°F, Miami=75°F,
Atlanta=50°F, with arbitrary conditions and precipitation chances. -/
def c9input (c1 c2 c3 : String) (p1 p2 p3 : Int) : List WeatherRecord :=
  [⟨"San Francisco", 60, c1, p1⟩, ⟨"Miami", 75, c2, p2⟩,
   ⟨"Atlanta", 50, c3, p3⟩]

/-- Concrete final proposal (C6 witness). -/
def c6final : CognitionOutput :=
  { reasoning := "done", proposed_action := none, evidence_refs := ["e"],
    is_final_action := true, control_validated := false }

/-- Concrete non-final proposal arriving with the control-validated flag
already true (C6 witness). -/
def c6nonfinal : CognitionOutput :=
  { reasoning := "step", proposed_action := none, evidence_refs := ["e"],
    is_final_action := false, control_validated := true }

/-- Concrete proposal naming an unregistered tool (C8 witness). -/
def c8output : CognitionOutput :=
  { reasoning := "call foo", proposed_action := some ⟨some "foo", []⟩,
    evidence_refs := ["e"], is_final_action := false,
    control_validated := false }

/-! General lemmas about the embedding, shared by the claim theorems. -/

theorem dictGet_dictSet {α : Type} (l : List (String × α)) (k k' : String)
    (v : α) :
    dictGet (dictSet l k v) k' = if k' = k then some v else dictGet l k' := by
  induction l with
  | nil =>
    by_cases h : k' = k
    · simp [dictSet, dictGet, h]
    · simp [dictSet, dictGet, h, Ne.symm h]
  | cons p rest ih =>
    obtain ⟨k0, v0⟩ := p
    by_cases h0 : k0 = k
    · subst h0
      by_cases h1 : k0 = k'
      · subst h1
        simp [dictSet, dictGet]
      · simp [dictSet, dictGet, h1, Ne.symm h1]
    · by_cases h1 : k0 = k'
      · subst h1
        simp [dictSet, dictGet, h0, Ne.symm h0]
      · simp [dictSet, dictGet, h0, h1, ih]

theorem has_evidence_store_evidence (m : Memory) (id id' : String)
    (v : Value) (h : m.has_evidence id = true) :
    (m.store_evidence id' v).has_evidence id = true := by
  simp only [Memory.has_evidence, Memory.store_evidence] at h ⊢
  rw [dictGet_dictSet]
  by_cases he : id = id' <;> simp [he, h]

theorem countModule_append (h ts : List LoopTrace) (mod : String) :
    countModule (h ++ ts) mod = countModule h mod + countModule ts mod := by
  simp [countModule, List.filter_append]

theorem countModule_log_trace (m : Memory) (t : LoopTrace) (mod : String) :
    countModule (m.log_trace t).history mod =
      countModule m.history mod + countModule [t] mod := by
  simp [Memory.log_trace, countModule_append]

theorem pa_controlMutate (o : CognitionOutput) :
    (controlMutate o).pa = o.pa := by
  by_cases h : o.is_final_action <;>
    simp [controlMutate, h, CognitionOutput.pa]

theorem refs_controlMutate (o : CognitionOutput) :
    (controlMutate o).evidence_refs = o.evidence_refs := by
  by_cases h : o.is_final_action <;> simp [controlMutate, h]

theorem final_controlMutate (o : CognitionOutput) :
    (controlMutate o).is_final_action = o.is_final_action := by
  by_cases h : o.is_final_action <;> simp [controlMutate, h]

theorem controlVerdict_output (rules : Rules) (m : Memory)
    (o : CognitionOutput) :
    (controlVerdict rules m o).2.2 = controlMutate o := by
  simp only [controlVerdict]
  split
  · rfl
  · split <;> rfl

theorem final_violation_not_mem (rules : Rules) (o : CognitionOutput)
    (h : o.is_final_action = false ∨ o.control_validated = true) :
    "Final action without Control validation" ∉ validateIssues rules o := by
  intro hmem
  simp only [validateIssues, List.mem_append] at hmem
  rcases hmem with hm | hm
  · split at hm
    · split at hm <;> simp_all
    · simp at hm
  · rcases h with h | h
    · rw [h] at hm
      simp at hm
    · rw [h] at hm
      simp at hm

/-! Claim theorems. -/

/-- C1 counterexample: with identifier `"e1"` already cached with value
`1`, a second `store_evidence` call with value `2` is not a no-op — the
value stored under the identifier afterwards differs from the value
stored before. -/
theorem scl_C1_cex :
    c1mem.has_evidence "e1" = true ∧
    ¬((c1mem.store_evidence "e1" (.int 2)).get_evidence "e1" =
       c1mem.get_evidence "e1") := by
  refine ⟨rfl, ?_⟩
  intro h
  simp [c1mem, Memory.store_evidence, Memory.get_evidence, Memory.init,
        dictSet, dictGet] at h

/-- C1 (corrected): for an identifier already present in the evidence
cache, a second `store_evidence` call overwrites the cached value with
the new one (last-write-wins) and leaves the rest of the store
untouched; no duplicate signal distinguishable from a first write is
produced (the method returns nothing either way) — deduplication is
instead enforced by the Policy Gate before Action runs. -/
theorem scl_C1 (m : Memory) (id : String) (v : Value)
    (h : m.has_evidence id = true) :
    (m.store_evidence id v).get_evidence id = some v ∧
    (m.store_evidence id v).store = m.store ∧
    (m.store_evidence id v).history = m.history := by
  refine ⟨?_, rfl, rfl⟩
  simp [Memory.store_evidence, Memory.get_evidence, dictGet_dictSet]

/-- C1 witness: the corrected statement applied at the concrete cache
holding `"e1"`. -/
theorem scl_C1_witness :
    c1mem.has_evidence "e1" = true ∧
    ((c1mem.store_evidence "e1" (.int 2)).get_evidence "e1" =
       some (.int 2) ∧
     (c1mem.store_evidence "e1" (.int 2)).store = c1mem.store ∧
     (c1mem.store_evidence "e1" (.int 2)).history = c1mem.history) :=
  ⟨rfl, scl_C1 c1mem "e1" (.int 2) rfl⟩

/-- C2 counterexample: an approved proposal whose tool dispatch succeeds
leaves the working-memory store empty — the tool result is cached as
evidence and returned, but no working-memory entry is readable via
`read`. -/
theorem scl_C2_cex :
    (controlStep defaultRules Memory.init 1 c2output).is_valid = true ∧
    (actionStep c2registry Memory.init 1 c2output).1 = .str "data42" ∧
    (actionStep c2registry Memory.init 1 c2output).2.has_evidence
      (actionEvidenceId "get_data" []) = true ∧
    (actionStep c2registry Memory.init 1 c2output).2.store = [] := by
  refine ⟨rfl, rfl, ?_, rfl⟩
  simp [actionStep, c2output, c2registry, ToolRegistry.execute,
        CognitionOutput.pa, ProposedAction.toolNameTruthy,
        Memory.has_evidence, Memory.store_evidence, Memory.log_trace,
        Memory.init, dictGet, dictSet]

/-- C2 (corrected): for every approved proposal whose tool dispatch
succeeds, the Action stage returns the tool result, stores it as an
evidence-cache entry keyed by the derived evidence identifier, and
appends an Action trace; the working-memory store is left unchanged (the
result is carried into the next iteration context instead of being
written through `Memory.write`). -/
theorem scl_C2 (registry : ToolRegistry) (m : Memory) (lc : Nat)
    (o : CognitionOutput) (t : String) (v : Value)
    (ht : o.pa.toolNameTruthy = some t)
    (hv : registry.execute t o.pa.parameters = .ok v) :
    (actionStep registry m lc o).1 = v ∧
    (actionStep registry m lc o).2.evidence_cache =
      dictSet m.evidence_cache (actionEvidenceId t o.pa.parameters) v ∧
    countModule (actionStep registry m lc o).2.history "Action" =
      countModule m.history "Action" + 1 ∧
    (actionStep registry m lc o).2.store = m.store := by
  refine ⟨?_, ?_, ?_, ?_⟩
  · simp only [actionStep, ht, hv]
  · simp only [actionStep, ht, hv]
    rfl
  · simp only [actionStep, ht, hv]
    rw [countModule_log_trace]
    rfl
  · simp only [actionStep, ht, hv]
    rfl

/-- C2 witness: the corrected statement applied at the concrete one-tool
registry. -/
theorem scl_C2_witness :
    c2output.pa.toolNameTruthy = some "get_data" ∧
    c2registry.execute "get_data" c2output.pa.parameters =
      .ok (.str "data42") ∧
    ((actionStep c2registry Memory.init 1 c2output).1 = .str "data42" ∧
     (actionStep c2registry Memory.init 1 c2output).2.evidence_cache =
       dictSet Memory.init.evidence_cache
         (actionEvidenceId "get_data" c2output.pa.parameters)
         (.str "data42") ∧
     countModule (actionStep c2registry Memory.init 1 c2output).2.history
       "Action" = countModule Memory.init.history "Action" + 1 ∧
     (actionStep c2registry Memory.init 1 c2output).2.store =
       Memory.init.store) :=
  ⟨rfl, rfl,
   scl_C2 c2registry Memory.init 1 c2output "get_data" (.str "data42")
     rfl rfl⟩

/-- C6 (confirmed): the Policy Gate returns the proposal with the
step-1 mutation applied (control-validated forced to true exactly for
final proposals, before rule evaluation), the
`no_final_answer_without_control_pass` violation message is unreachable
for any proposal that passed through the mutation, and a non-final
proposal arriving with control-validated already true raises no such
violation. -/
theorem scl_C6 :
    (∀ (rules : Rules) (m : Memory) (o : CognitionOutput),
       (controlVerdict rules m o).2.2 = controlMutate o ∧
       (o.is_final_action = true →
        (controlVerdict rules m o).2.2.control_validated = true)) ∧
    (∀ (rules : Rules) (o : CognitionOutput),
       "Final action without Control validation" ∉
         validateIssues rules (controlMutate o)) ∧
    (∀ (rules : Rules) (o : CognitionOutput),
       o.is_final_action = false → o.control_validated = true →
       "Final action without Control validation" ∉
         validateIssues rules o) := by
  refine ⟨fun rules m o => ⟨controlVerdict_output rules m o, fun hf => ?_⟩,
          fun rules o => ?_, fun rules o hf hv => ?_⟩
  · rw [controlVerdict_output]
    simp [controlMutate, hf]
  · apply final_violation_not_mem
    by_cases hf : o.is_final_action
    · right
      simp [controlMutate, hf]
    · left
      simp only [Bool.not_eq_true] at hf
      rw [final_controlMutate, hf]
  · exact final_violation_not_mem rules o (Or.inl hf)

/-- C6 witness: the three parts applied at a concrete final proposal and
a concrete pre-validated non-final proposal. -/
theorem scl_C6_witness :
    ((controlVerdict defaultRules Memory.init c6final).2.2 =
       controlMutate c6final ∧
     (c6final.is_final_action = true →
      (controlVerdict defaultRules Memory.init c6final).2.2.control_validated
        = true)) ∧
    ("Final action without Control validation" ∉
       validateIssues defaultRules (controlMutate c6final)) ∧
    (c6nonfinal.is_final_action = false ∧
     c6nonfinal.control_validated = true ∧
     "Final action without Control validation" ∉
       validateIssues defaultRules c6nonfinal) :=
  ⟨scl_C6.1 defaultRules Memory.init c6final,
   scl_C6.2.1 defaultRules c6final,
   ⟨rfl, rfl, scl_C6.2.2 defaultRules c6nonfinal rfl rfl⟩⟩

/-- C8 (confirmed): when the dispatched tool raises (including dispatch
of an unregistered name), the Action stage returns the structured error
result and the memory — including the evidence cache — is completely
unchanged. -/
theorem scl_C8 (registry : ToolRegistry) (m : Memory) (lc : Nat)
    (o : CognitionOutput) (t e : String)
    (ht : o.pa.toolNameTruthy = some t)
    (he : registry.execute t o.pa.parameters = .error e) :
    actionStep registry m lc o =
      (.dict [("status", .str "error"),
              ("message", .str ("Action execution failed: " ++ e))], m) := by
  simp only [actionStep, ht, he]

/-- C8 witness: dispatch of the unregistered tool name `"foo"` on the
empty registry. -/
theorem scl_C8_witness :
    c8output.pa.toolNameTruthy = some "foo" ∧
    ToolRegistry.execute ⟨[]⟩ "foo" c8output.pa.parameters =
      .error ("Tool " ++ sq ++ "foo" ++ sq ++ " not registered") ∧
    actionStep ⟨[]⟩ Memory.init 1 c8output =
      (.dict [("status", .str "error"),
              ("message", .str ("Action execution failed: " ++
                 ("Tool " ++ sq ++ "foo" ++ sq ++ " not registered")))],
       Memory.init) :=
  ⟨rfl, rfl,
   scl_C8 ⟨[]⟩ Memory.init 1 c8output "foo"
     ("Tool " ++ sq ++ "foo" ++ sq ++ " not registered") rfl rfl⟩

/-- C9 (confirmed): on the scenario-A records (SF=60°F, Miami=75°F,
Atlanta=50°F, any conditions and precipitation chances) with base
threshold 55°F, the cities above threshold are San Francisco and Miami,
the cooler of the two is San Francisco, and the decision is a final
`send_email` proposal whose parameters and destination field name San
Francisco as the selected destination. -/
theorem scl_C9 (c1 c2 c3 : String) (p1 p2 p3 : Int) :
    aboveThresholdList (c9input c1 c2 c3 p1 p2 p3) 55 =
      [⟨"San Francisco", 60, c1, p1⟩, ⟨"Miami", 75, c2, p2⟩] ∧
    pyMinByTemp (aboveThresholdList (c9input c1 c2 c3 p1 p2 p3) 55) =
      ⟨"San Francisco", 60, c1, p1⟩ ∧
    (generateDecision (c9input c1 c2 c3 p1 p2 p3) 55).is_final_action =
      true ∧
    (generateDecision (c9input c1 c2 c3 p1 p2 p3) 55).pa.tool_name =
      some "send_email" ∧
    dictGet (generateDecision (c9input c1 c2 c3 p1 p2 p3) 55).pa.parameters
      "subject" = some (.str "Travel Plan Confirmed: San Francisco") ∧
    (generateDecision (c9input c1 c2 c3 p1 p2 p3) 55).destination =
      some "San Francisco" :=
  ⟨rfl, rfl, rfl, rfl, rfl, rfl⟩

/-- C9 witness: the scenario-A statement at concrete conditions and
precipitation chances. -/
theorem scl_C9_witness :
    aboveThresholdList (c9input "Partly Cloudy" "Sunny" "Clear" 10 20 30)
        55 =
      [⟨"San Francisco", 60, "Partly Cloudy", 10⟩,
       ⟨"Miami", 75, "Sunny", 20⟩] ∧
    pyMinByTemp
        (aboveThresholdList
          (c9input "Partly Cloudy" "Sunny" "Clear" 10 20 30) 55) =
      ⟨"San Francisco", 60, "Partly Cloudy", 10⟩ ∧
    (generateDecision (c9input "Partly Cloudy" "Sunny" "Clear" 10 20 30)
        55).is_final_action = true ∧
    (generateDecision (c9input "Partly Cloudy" "Sunny" "Clear" 10 20 30)
        55).pa.tool_name = some "send_email" ∧
    dictGet
        (generateDecision (c9input "Partly Cloudy" "Sunny" "Clear" 10 20 30)
          55).pa.parameters "subject" =
      some (.str "Travel Plan Confirmed: San Francisco") ∧
    (generateDecision (c9input "Partly Cloudy" "Sunny" "Clear" 10 20 30)
        55).destination = some "San Francisco" :=
  scl_C9 "Partly Cloudy" "Sunny" "Clear" 10 20 30

theorem validateIssues_mutate_default (o : CognitionOutput) :
    validateIssues defaultRules (controlMutate o) =
      if o.evidence_refs.isEmpty then ["Missing evidence citations"]
      else [] := by
  by_cases hf : o.is_final_action
  · simp [controlMutate, hf, validateIssues, defaultRules]
  · simp only [Bool.not_eq_true] at hf
    simp [controlMutate, hf, validateIssues, defaultRules]

theorem validate_mutate_default (o : CognitionOutput) :
    MetaPrompt.validate defaultRules (controlMutate o) =
      if o.evidence_refs.isEmpty then
        (false, "VIOLATIONS: Missing evidence citations")
      else (true, "PASS") := by
  by_cases h : o.evidence_refs.isEmpty
  · simp [MetaPrompt.validate, validateIssues_mutate_default, h]
    rfl
  · simp [MetaPrompt.validate, validateIssues_mutate_default, h]

theorem controlVerdict_pair_default (m : Memory) (o : CognitionOutput) :
    verdictPair defaultRules m o =
      if redundantHit m o then (false, redundantMsg)
      else if o.evidence_refs.isEmpty then
        (false, "VIOLATIONS: Missing evidence citations")
      else (true, "PASS") := by
  rcases htn : o.pa.toolNameTruthy with _ | t
  · simp only [verdictPair, controlVerdict, redundantHit, pa_controlMutate,
               validate_mutate_default, htn]
    by_cases h : o.evidence_refs.isEmpty <;> simp [h]
  · simp only [verdictPair, controlVerdict, redundantHit, pa_controlMutate,
               validate_mutate_default, htn]
    by_cases hr : m.has_evidence (controlEvidenceId t o.pa.parameters)
    · simp [hr]
    · simp only [Bool.not_eq_true] at hr
      by_cases h : o.evidence_refs.isEmpty <;> simp [h, hr]

/-- C10 (confirmed): the Policy Gate verdict is invariant under the
`single_final_action`, `validate_conditional_branches` and
`avoid_redundant_tool_calls` flags (they are never consulted); with the
default rule set, the approval/message pair is a function of the three
Booleans named by the claim (empty evidence list, final-without-
validation, identifier cached); and the redundant-call rejection fires
for every rule set — in particular regardless of
`avoid_redundant_tool_calls`. -/
theorem scl_C10 :
    (∀ (r1 r2 : Rules) (m : Memory) (o : CognitionOutput),
       r1.must_cite_stored_evidence = r2.must_cite_stored_evidence →
       r1.no_final_answer_without_control_pass =
         r2.no_final_answer_without_control_pass →
       controlVerdict r1 m o = controlVerdict r2 m o) ∧
    (∀ (m1 m2 : Memory) (o1 o2 : CognitionOutput),
       o1.evidence_refs.isEmpty = o2.evidence_refs.isEmpty →
       finalUnvalidated o1 = finalUnvalidated o2 →
       redundantHit m1 o1 = redundantHit m2 o2 →
       verdictPair defaultRules m1 o1 = verdictPair defaultRules m2 o2) ∧
    (∀ (r : Rules) (m : Memory) (o : CognitionOutput) (t : String),
       o.pa.toolNameTruthy = some t →
       m.has_evidence (controlEvidenceId t o.pa.parameters) = true →
       verdictPair r m o = (false, redundantMsg)) := by
  refine ⟨fun r1 r2 m o h1 h2 => ?_, fun m1 m2 o1 o2 h1 h2 h3 => ?_,
          fun r m o t ht hm => ?_⟩
  · obtain ⟨a1, b1, c1, d1, e1⟩ := r1
    obtain ⟨a2, b2, c2, d2, e2⟩ := r2
    simp only at h1 h2
    subst h1
    subst h2
    rfl
  · rw [controlVerdict_pair_default, controlVerdict_pair_default, h1, h3]
  · simp only [verdictPair, controlVerdict, pa_controlMutate, ht, hm]
    simp

/-- C10 witness: the three parts at concrete rule sets, memories and
proposals — disabling the three unconsulted flags leaves the verdict
unchanged, two proposals agreeing on the three Booleans get the same
verdict, and a cached identifier is rejected as redundant even with
`avoid_redundant_tool_calls` disabled. -/
theorem scl_C10_witness :
    controlVerdict c10rules Memory.init c10output =
      controlVerdict defaultRules Memory.init c10output ∧
    verdictPair defaultRules Memory.init c10output =
      verdictPair defaultRules Memory.init c5output ∧
    verdictPair c10rules c10mem c10output = (false, redundantMsg) := by
  refine ⟨scl_C10.1 c10rules defaultRules Memory.init c10output rfl rfl,
          scl_C10.2.1 Memory.init Memory.init c10output c5output rfl rfl
            rfl,
          scl_C10.2.2 c10rules c10mem c10output "t1" rfl ?_⟩
  simp [c10mem, c10output, Memory.store_evidence, Memory.init,
        Memory.has_evidence, CognitionOutput.pa,
        ProposedAction.toolNameTruthy, dictGet, dictSet]

theorem sortKeysF_eq_map (fs : List (String × Value)) :
    sortKeysF fs = fs.map fun p => (p.1, sortKeysV p.2) := by
  induction fs with
  | nil => simp [sortKeysF]
  | cons p rest ih =>
    obtain ⟨k, v⟩ := p
    simp [sortKeysF, ih]

theorem keys_sortKeysF (fs : List (String × Value)) :
    (sortKeysF fs).map Prod.fst = fs.map Prod.fst := by
  rw [sortKeysF_eq_map, List.map_map]
  rfl

theorem keyLE_trans (a b c : String × Value) (hab : keyLE a b = true)
    (hbc : keyLE b c = true) : keyLE a c = true := by
  simp only [keyLE, decide_eq_true_eq] at hab hbc ⊢
  exact le_trans hab hbc

theorem keyLE_total (a b : String × Value) :
    (keyLE a b || keyLE b a) = true := by
  simp only [keyLE, Bool.or_eq_true, decide_eq_true_eq]
  exact le_total a.1 b.1

theorem mergeSort_keyLE_lt (q : List (String × Value))
    (hk : (q.map Prod.fst).Nodup) :
    (q.mergeSort keyLE).Pairwise
      (fun a b : String × Value => a.1 < b.1) := by
  have hsorted : (q.mergeSort keyLE).Pairwise
      (fun a b => keyLE a b = true) :=
    List.sorted_mergeSort keyLE_trans keyLE_total q
  have hks : ((q.mergeSort keyLE).map Prod.fst).Nodup :=
    ((List.mergeSort_perm q keyLE).map Prod.fst).symm.nodup hk
  have hne : (q.mergeSort keyLE).Pairwise (fun a b => a.1 ≠ b.1) :=
    List.pairwise_map.mp hks
  exact (hsorted.and hne).imp
    (fun hab => lt_of_le_of_ne (by simpa [keyLE] using hab.1) hab.2)

theorem evidenceId_perm_invariant (t : String)
    (p1 p2 : List (String × Value)) (hperm : p1.Perm p2)
    (hnd : (p1.map Prod.fst).Nodup) :
    controlEvidenceId t p1 = controlEvidenceId t p2 := by
  have hq : (sortKeysF p1).Perm (sortKeysF p2) := by
    rw [sortKeysF_eq_map, sortKeysF_eq_map]
    exact hperm.map _
  have hk1 : ((sortKeysF p1).map Prod.fst).Nodup := by
    rw [keys_sortKeysF]
    exact hnd
  have hk2 : ((sortKeysF p2).map Prod.fst).Nodup :=
    (hq.map Prod.fst).nodup hk1
  have hs : ((sortKeysF p1).mergeSort keyLE).Perm
      ((sortKeysF p2).mergeSort keyLE) :=
    (List.mergeSort_perm (sortKeysF p1) keyLE).trans
      (hq.trans (List.mergeSort_perm (sortKeysF p2) keyLE).symm)
  haveI : IsAntisymm (String × Value)
      (fun a b : String × Value => a.1 < b.1) :=
    ⟨fun a b h1 h2 => absurd (lt_trans h1 h2) (lt_irrefl _)⟩
  have hsort : (sortKeysF p1).mergeSort keyLE =
      (sortKeysF p2).mergeSort keyLE :=
    List.eq_of_perm_of_sorted hs (mergeSort_keyLE_lt _ hk1)
      (mergeSort_keyLE_lt _ hk2)
  have hval : sortKeysV (.dict p1) = sortKeysV (.dict p2) := by
    simp only [sortKeysV]
    rw [hsort]
  unfold controlEvidenceId jsonDumpsSortKeys
  rw [hval]

/-- C3 (confirmed): the Policy Gate and the Action stage derive the same
evidence identifier (the two sites compute the same formula), and the
identifier is order-independent: parameter mappings with the same keys
bound to equal values, in any insertion order, yield identical
identifiers. -/
theorem scl_C3 :
    (∀ (t : String) (p : List (String × Value)),
       controlEvidenceId t p = actionEvidenceId t p) ∧
    (∀ (t : String) (p1 p2 : List (String × Value)),
       p1.Perm p2 → (p1.map Prod.fst).Nodup →
       controlEvidenceId t p1 = controlEvidenceId t p2) :=
  ⟨fun _ _ => rfl, fun t p1 p2 hperm hnd =>
    evidenceId_perm_invariant t p1 p2 hperm hnd⟩

/-- C3 witness: swapping two concrete parameters leaves the identifier
unchanged, and the two call sites agree on a concrete input. -/
theorem scl_C3_witness :
    ([("city", Value.str "SF"), ("units", Value.str "F")].Perm
       [("units", Value.str "F"), ("city", Value.str "SF")]) ∧
    (([("city", Value.str "SF"),
       ("units", Value.str "F")].map Prod.fst).Nodup) ∧
    controlEvidenceId "get_weather"
        [("city", .str "SF"), ("units", .str "F")] =
      controlEvidenceId "get_weather"
        [("units", .str "F"), ("city", .str "SF")] ∧
    controlEvidenceId "get_weather" cityParams =
      actionEvidenceId "get_weather" cityParams :=
  ⟨List.Perm.swap _ _ _, by simp,
   scl_C3.2 "get_weather" _ _ (List.Perm.swap _ _ _) (by simp),
   scl_C3.1 "get_weather" cityParams⟩

theorem countModule_singleton (t : LoopTrace) (mod : String) :
    countModule [t] mod = if t.module == mod then 1 else 0 := by
  simp only [countModule, List.filter]
  split <;> simp_all

theorem cognitionStep_output {σ : Type} (engine : Engine σ)
    (registry : ToolRegistry) (s : SCLState σ) (ctx : Context) :
    (cognitionStep engine registry s ctx).1 =
      (engine s.engineState (cognitionPrompt s.memory registry ctx) ctx).1 :=
  rfl

theorem cognitionStep_counter {σ : Type} (engine : Engine σ)
    (registry : ToolRegistry) (s : SCLState σ) (ctx : Context) :
    (cognitionStep engine registry s ctx).2.loop_counter =
      s.loop_counter + 1 :=
  rfl

theorem cognitionStep_cache {σ : Type} (engine : Engine σ)
    (registry : ToolRegistry) (s : SCLState σ) (ctx : Context) :
    (cognitionStep engine registry s ctx).2.memory.evidence_cache =
      s.memory.evidence_cache :=
  rfl

theorem cognitionStep_count {σ : Type} (engine : Engine σ)
    (registry : ToolRegistry) (s : SCLState σ) (ctx : Context)
    (mod : String) :
    countModule (cognitionStep engine registry s ctx).2.memory.history mod =
      countModule s.memory.history mod +
        (if "Cognition" == mod then 1 else 0) := by
  simp only [cognitionStep]
  rw [countModule_log_trace, countModule_singleton]

theorem controlStep_is_valid (rules : Rules) (m : Memory) (lc : Nat)
    (o : CognitionOutput) :
    (controlStep rules m lc o).is_valid = (controlVerdict rules m o).1 :=
  rfl

theorem controlStep_message (rules : Rules) (m : Memory) (lc : Nat)
    (o : CognitionOutput) :
    (controlStep rules m lc o).message = (controlVerdict rules m o).2.1 :=
  rfl

theorem controlStep_cache (rules : Rules) (m : Memory) (lc : Nat)
    (o : CognitionOutput) :
    (controlStep rules m lc o).memory.evidence_cache = m.evidence_cache :=
  rfl

theorem controlStep_count (rules : Rules) (m : Memory) (lc : Nat)
    (o : CognitionOutput) (mod : String) :
    countModule (controlStep rules m lc o).memory.history mod =
      countModule m.history mod + (if "Control" == mod then 1 else 0) := by
  simp only [controlStep]
  rw [countModule_log_trace, countModule_singleton]

theorem controlVerdict_redundant (rules : Rules) (m : Memory)
    (o : CognitionOutput) (t : String)
    (ht : o.pa.toolNameTruthy = some t)
    (hm : m.has_evidence (controlEvidenceId t o.pa.parameters) = true) :
    controlVerdict rules m o = (false, redundantMsg, controlMutate o) := by
  simp only [controlVerdict, pa_controlMutate, ht, hm]
  simp

theorem actionStep_count (registry : ToolRegistry) (m : Memory)
    (lc : Nat) (o : CognitionOutput) (mod : String)
    (h : ("Action" == mod) = false) :
    countModule (actionStep registry m lc o).2.history mod =
      countModule m.history mod := by
  rcases htn : o.pa.toolNameTruthy with _ | t
  · simp [actionStep, htn]
  · rcases he : registry.execute t o.pa.parameters with e | v
    · simp [actionStep, htn, he]
    · simp only [actionStep, htn, he]
      rw [countModule_log_trace, countModule_singleton]
      simp [h, Memory.store_evidence]

theorem actionStep_cache_mono (registry : ToolRegistry) (m : Memory)
    (lc : Nat) (o : CognitionOutput) (id : String)
    (h : m.has_evidence id = true) :
    ((actionStep registry m lc o).2).has_evidence id = true := by
  rcases htn : o.pa.toolNameTruthy with _ | t
  · simpa [actionStep, htn] using h
  · rcases he : registry.execute t o.pa.parameters with e | v
    · simpa [actionStep, htn, he] using h
    · simp only [actionStep, htn, he]
      exact has_evidence_store_evidence m id _ v h

theorem runLoop_counter_eq_count {σ : Type} (engine : Engine σ)
    (registry : ToolRegistry) (rules : Rules) :
    ∀ (fuel : Nat) (s : SCLState σ) (ctx : Context),
      s.loop_counter = countModule s.memory.history "Cognition" →
      ((runLoop engine registry rules fuel s ctx).1).loop_counter =
        countModule
          ((runLoop engine registry rules fuel s ctx).1).memory.history
          "Cognition" := by
  intro fuel
  induction fuel with
  | zero =>
    intro s ctx h
    simpa [runLoop] using h
  | succ fuel ih =>
    intro s ctx h
    have h2 : (⟨(controlStep rules
          (cognitionStep engine registry s ctx).2.memory
          (cognitionStep engine registry s ctx).2.loop_counter
          (cognitionStep engine registry s ctx).1).memory,
        (cognitionStep engine registry s ctx).2.loop_counter,
        (cognitionStep engine registry s ctx).2.engineState⟩ :
          SCLState σ).loop_counter =
        countModule (controlStep rules
          (cognitionStep engine registry s ctx).2.memory
          (cognitionStep engine registry s ctx).2.loop_counter
          (cognitionStep engine registry s ctx).1).memory.history
          "Cognition" := by
      rw [controlStep_count, cognitionStep_count, cognitionStep_counter, h]
      rfl
    simp only [runLoop]
    split
    · split
      · rw [actionStep_count _ _ _ _ "Cognition" rfl]
        exact h2
      · exact ih _ _
          (by rw [actionStep_count _ _ _ _ "Cognition" rfl]; exact h2)
    · exact ih _ _ h2

theorem runLoop_counter_le {σ : Type} (engine : Engine σ)
    (registry : ToolRegistry) (rules : Rules) :
    ∀ (fuel : Nat) (s : SCLState σ) (ctx : Context),
      ((runLoop engine registry rules fuel s ctx).1).loop_counter ≤
        s.loop_counter + fuel := by
  intro fuel
  induction fuel with
  | zero =>
    intro s ctx
    simp [runLoop]
  | succ fuel ih =>
    intro s ctx
    simp only [runLoop]
    split
    · split
      · rw [cognitionStep_counter]
        omega
      · exact le_trans (ih _ _) (by rw [cognitionStep_counter]; omega)
    · exact le_trans (ih _ _) (by rw [cognitionStep_counter]; omega)

/-- C4 (confirmed): for every run — any cognition engine, tool registry,
rule set and task — the audit report's `total_loops` equals the number
of Cognition-stage trace records in the log, and never exceeds the
configured iteration ceiling `max_loops`. -/
theorem scl_C4 {σ : Type} (engine : Engine σ) (registry : ToolRegistry)
    (rules : Rules) (max_loops : Nat) (es0 : σ) (task : String) :
    (run engine registry rules max_loops es0 task).1.total_loops =
      countModule (run engine registry rules max_loops es0 task).1.log
        "Cognition" ∧
    (run engine registry rules max_loops es0 task).1.total_loops ≤
      max_loops := by
  constructor
  · exact runLoop_counter_eq_count engine registry rules max_loops
      ⟨retrievalStep Memory.init task, 0, es0⟩
      ⟨task, retrievalPlan, "in_progress", none, none⟩ rfl
  · have hle := runLoop_counter_le engine registry rules max_loops
      ⟨retrievalStep Memory.init task, 0, es0⟩
      ⟨task, retrievalPlan, "in_progress", none, none⟩
    simpa [run, generateAuditReport] using hle

/-- C4 witness: the invariant instantiated at a concrete engine,
registry and ceiling. -/
theorem scl_C4_witness :
    (run c7engine ⟨[]⟩ defaultRules 2 () "t").1.total_loops =
      countModule (run c7engine ⟨[]⟩ defaultRules 2 () "t").1.log
        "Cognition" ∧
    (run c7engine ⟨[]⟩ defaultRules 2 () "t").1.total_loops ≤ 2 :=
  scl_C4 c7engine ⟨[]⟩ defaultRules 2 () "t"

/-- C7 (confirmed): with iteration ceiling 1 and a decision-maker whose
proposals are always non-final and always rejected by the Policy Gate,
the loop runs exactly one iteration and exits through the exhausted
guard: `total_loops` is 1 and the completion flag (the final-action
break) is false. -/
theorem scl_C7 {σ : Type} (engine : Engine σ) (registry : ToolRegistry)
    (es0 : σ) (task : String)
    (hnf : ∀ (st : σ) (p : String) (c : Context),
      ((engine st p c).1).is_final_action = false)
    (hrej : ∀ (st : σ) (p : String) (c : Context) (m : Memory) (lc : Nat),
      (controlStep defaultRules m lc ((engine st p c).1)).is_valid = false) :
    (run engine registry defaultRules 1 es0 task).1.total_loops = 1 ∧
    (run engine registry defaultRules 1 es0 task).2 = false := by
  constructor <;>
    simp [run, runLoop, cognitionStep_output, hrej, generateAuditReport,
          cognitionStep_counter]

/-- C7 witness: the constant evidence-free engine on the empty registry
with ceiling 1. -/
theorem scl_C7_witness :
    (∀ (st : Unit) (p : String) (c : Context),
       ((c7engine st p c).1).is_final_action = false) ∧
    (run c7engine ⟨[]⟩ defaultRules 1 () "task").1.total_loops = 1 ∧
    (run c7engine ⟨[]⟩ defaultRules 1 () "task").2 = false :=
  ⟨fun _ _ _ => rfl,
   (scl_C7 c7engine ⟨[]⟩ () "task" (fun _ _ _ => rfl)
      (fun _ _ _ _ _ => rfl)).1,
   (scl_C7 c7engine ⟨[]⟩ () "task" (fun _ _ _ => rfl)
      (fun _ _ _ _ _ => rfl)).2⟩

/-- C5 (confirmed): once the evidence identifier of a call of tool `T`
with parameter mapping `P` is in the evidence cache (as it is after the
call was approved and executed successfully), every later iteration of
the loop whose proposal names `T` with a parameter mapping equal to `P`
is rejected by the Policy Gate with the distinct redundant-call reason,
and that iteration ends at the Control stage without invoking Action
(the evidence cache is untouched and no Action trace is appended). -/
theorem scl_C5 {σ : Type} (engine : Engine σ) (registry : ToolRegistry)
    (rules : Rules) (T : String) (P : List (String × Value)) :
    ∀ (fuel : Nat) (s : SCLState σ) (ctx : Context),
      s.memory.has_evidence (controlEvidenceId T P) = true →
      redundantGuard engine registry rules T P fuel s ctx := by
  intro fuel
  induction fuel with
  | zero =>
    intro s ctx _
    trivial
  | succ fuel ih =>
    intro s ctx h
    simp only [redundantGuard]
    constructor
    · rintro ⟨ht, hperm, hnd⟩
      have hnd1 : ((((cognitionStep engine registry s ctx).1).pa.parameters).map
          Prod.fst).Nodup :=
        ((hperm.map Prod.fst).symm).nodup hnd
      have hid : controlEvidenceId T
            ((cognitionStep engine registry s ctx).1).pa.parameters =
          controlEvidenceId T P :=
        evidenceId_perm_invariant T _ P hperm hnd1
      have hev : ((cognitionStep engine registry s ctx).2.memory).has_evidence
          (controlEvidenceId T
            ((cognitionStep engine registry s ctx).1).pa.parameters) =
            true := by
        rw [hid]
        exact h
      have hred := controlVerdict_redundant rules
        ((cognitionStep engine registry s ctx).2.memory)
        ((cognitionStep engine registry s ctx).1) T ht hev
      refine ⟨?_, ?_, rfl, ?_⟩
      · rw [controlStep_is_valid, hred]
      · rw [controlStep_message, hred]
      · rw [controlStep_count, cognitionStep_count]
        simp
    · split
      · split
        · trivial
        · exact ih _ _ (actionStep_cache_mono registry _ _ _ _ h)
      · exact ih _ _ h

/-- C5 witness: the guard applied for one remaining iteration to a state
whose cache already holds the identifier of the `get_weather` call on
`cityParams`, with an engine that re-proposes exactly that call. -/
theorem scl_C5_witness :
    c5mem.has_evidence (controlEvidenceId "get_weather" cityParams) =
      true ∧
    redundantGuard c5engine ⟨[]⟩ defaultRules "get_weather" cityParams 1
      ⟨c5mem, 0, ()⟩ ctx0 := by
  have h : c5mem.has_evidence
      (controlEvidenceId "get_weather" cityParams) = true := by
    simp [c5mem, Memory.store_evidence, Memory.init, Memory.has_evidence,
          dictGet, dictSet]
  exact ⟨h, scl_C5 c5engine ⟨[]⟩ defaultRules "get_weather" cityParams 1
    ⟨c5mem, 0, ()⟩ ctx0 h⟩

end SCL
